import Mathlib

/-!
Shallow embedding of `src/src/fem_1d_heat/geometry.py` (1-D linear FEM
building block for heat conduction).

Python floats are modelled by `PyFloat`: a finite rational value, a signed
infinity, or NaN.  Real (finite) float arithmetic is modelled exactly by
rational arithmetic; the non-finite cases follow IEEE-754 / numpy semantics
for the operations the source uses (`+`, `-`, `*`, `/`, `abs`, `<`).  In
particular numpy array division by zero yields an infinity or NaN with a
warning, not an exception, which is what `gradient_matrix` with `dz == 0`
and `global_to_local` with coincident nodes rely on.

Raisable Python operations are modelled with `Except PyErr`; mutating
property setters are modelled as state-threading functions returning the
(possibly unchanged) object together with the outcome, so that absence of
partial mutation is expressible.
-/

namespace Fem1d

/-- Model of a Python float: a finite real (exact rational), one of the two
IEEE infinities, or NaN. -/
inductive PyFloat where
  | finite (q : ℚ)
  | inf
  | negInf
  | nan
deriving DecidableEq

/-- Whether a `PyFloat` is a finite real number. -/
def PyFloat.isFinite : PyFloat → Bool
  | .finite _ => true
  | _ => false

/-- IEEE addition on the float model. -/
def pyAdd : PyFloat → PyFloat → PyFloat
  | .nan, _ => .nan
  | _, .nan => .nan
  | .finite a, .finite b => .finite (a + b)
  | .inf, .negInf => .nan
  | .negInf, .inf => .nan
  | .inf, _ => .inf
  | _, .inf => .inf
  | .negInf, _ => .negInf
  | _, .negInf => .negInf

/-- IEEE subtraction on the float model. -/
def pySub : PyFloat → PyFloat → PyFloat
  | .nan, _ => .nan
  | _, .nan => .nan
  | .finite a, .finite b => .finite (a - b)
  | .inf, .inf => .nan
  | .negInf, .negInf => .nan
  | .inf, _ => .inf
  | .negInf, _ => .negInf
  | _, .inf => .negInf
  | _, .negInf => .inf

/-- IEEE multiplication on the float model. -/
def pyMul : PyFloat → PyFloat → PyFloat
  | .nan, _ => .nan
  | _, .nan => .nan
  | .finite a, .finite b => .finite (a * b)
  | .finite a, .inf => if 0 < a then .inf else if a < 0 then .negInf else .nan
  | .inf, .finite a => if 0 < a then .inf else if a < 0 then .negInf else .nan
  | .finite a, .negInf => if 0 < a then .negInf else if a < 0 then .inf else .nan
  | .negInf, .finite a => if 0 < a then .negInf else if a < 0 then .inf else .nan
  | .inf, .inf => .inf
  | .inf, .negInf => .negInf
  | .negInf, .inf => .negInf
  | .negInf, .negInf => .inf

/-- Division on the float model, with numpy semantics for a zero divisor
(the divisor zero is treated as positive zero): a nonzero finite numerator
over zero gives a signed infinity, zero over zero gives NaN. -/
def pyDiv : PyFloat → PyFloat → PyFloat
  | .nan, _ => .nan
  | _, .nan => .nan
  | .finite a, .finite b =>
      if b = 0 then (if 0 < a then .inf else if a < 0 then .negInf else .nan)
      else .finite (a / b)
  | .finite _, .inf => .finite 0
  | .finite _, .negInf => .finite 0
  | .inf, .finite b => if b < 0 then .negInf else .inf
  | .negInf, .finite b => if b < 0 then .inf else .negInf
  | .inf, .inf => .nan
  | .inf, .negInf => .nan
  | .negInf, .inf => .nan
  | .negInf, .negInf => .nan

/-- IEEE strict comparison on the float model: any comparison with NaN is
false. -/
def pyLt : PyFloat → PyFloat → Bool
  | .nan, _ => false
  | _, .nan => false
  | .finite a, .finite b => decide (a < b)
  | .finite _, .inf => true
  | .finite _, .negInf => false
  | .inf, _ => false
  | .negInf, .negInf => false
  | .negInf, _ => true

/-- Absolute value (models `np.abs`). -/
def pyAbs : PyFloat → PyFloat
  | .finite q => .finite |q|
  | .nan => .nan
  | _ => .inf

/-- The two Python exception kinds the module raises. -/
inductive PyErr where
  | valueError
  | typeError
deriving DecidableEq

/-- Model of an arbitrary Python argument passed where a float is expected:
either a value `float()` accepts (a number or a numeric string, yielding the
given `PyFloat` — note `float` accepts the strings for infinity and NaN), or
a value `float()` rejects with `ValueError`. -/
inductive PyObj where
  | num (f : PyFloat)
  | nonNumeric
deriving DecidableEq

/-- Model of the Python builtin `float(x)`: returns the numeric value or
raises `ValueError`. -/
def pyfloat : PyObj → Except PyErr PyFloat
  | .num f => .ok f
  | .nonNumeric => .error .valueError

/-- Elementwise float conversion of a flat collection; models
`np.array(z_e, dtype=float).flatten()`, which raises `ValueError` when any
entry is not convertible. -/
def floatList : List PyObj → Except PyErr (List PyFloat)
  | [] => .ok []
  | x :: xs =>
      match pyfloat x with
      | .error e => .error e
      | .ok f =>
          match floatList xs with
          | .error e => .error e
          | .ok fs => .ok (f :: fs)

/-- Embedding of `global_to_local(z, z_e)` (geometry.py lines 4-31):
`z = float(z)`, then `z_e` is converted to a float array; a length other
than 2 raises `ValueError`; otherwise the result is
`(z - z_e[0]) / (z_e[1] - z_e[0])` with no further checks (the match on a
two-element list is exactly the `len(z_e) != 2` check of the source). -/
def global_to_local (z : PyObj) (z_e : List PyObj) : Except PyErr PyFloat :=
  match pyfloat z with
  | .error e => .error e
  | .ok zf =>
      match floatList z_e with
      | .error e => .error e
      | .ok ze =>
          match ze with
          | [a, b] => .ok (pyDiv (pySub zf a) (pySub b a))
          | _ => .error .valueError

/-- A 1-by-2 row of floats. -/
def Row2 : Type := PyFloat × PyFloat

/-- Embedding of `shape_matrix(s)` (geometry.py lines 34-56):
`s = float(s)`; raises `ValueError` if `s < 0.0 or s > 1.0`; otherwise
returns the row `[[1 - s, s]]`. -/
def shape_matrix (s : PyObj) : Except PyErr Row2 :=
  match pyfloat s with
  | .error e => .error e
  | .ok sf =>
      if pyLt sf (.finite 0) || pyLt (.finite 1) sf then .error .valueError
      else .ok (pySub (.finite 1) sf, sf)

/-- Embedding of `gradient_matrix(s, dz)` (geometry.py lines 59-88):
validates `s` exactly as `shape_matrix`, then `dz = float(dz)`; raises
`ValueError` if `dz < 0.0`; otherwise returns `[[-1.0, 1.0]] / dz`
(numpy elementwise division, so `dz == 0` produces infinities, not an
error). -/
def gradient_matrix (s : PyObj) (dz : PyObj) : Except PyErr Row2 :=
  match pyfloat s with
  | .error e => .error e
  | .ok sf =>
      if pyLt sf (.finite 0) || pyLt (.finite 1) sf then .error .valueError
      else
        match pyfloat dz with
        | .error e => .error e
        | .ok dzf =>
            if pyLt dzf (.finite 0) then .error .valueError
            else .ok (pyDiv (.finite (-1)) dzf, pyDiv (.finite 1) dzf)

/-- State of a `Point` instance (geometry.py lines 91-127): one stored
float `z`. -/
structure Point where
  z : PyFloat
deriving DecidableEq

/-- Embedding of `Point.__init__` / the `z` setter on a fresh object:
`self.z = z` runs `value = float(value); self._z = value`. -/
def point_init (z : PyObj) : Except PyErr Point :=
  match pyfloat z with
  | .error e => .error e
  | .ok f => .ok ⟨f⟩

/-- Embedding of the `Point.z` setter on an existing object: the conversion
runs before the assignment, so on failure the stored value is unchanged. -/
def set_z (p : Point) (v : PyObj) : Except PyErr Unit × Point :=
  match pyfloat v with
  | .error e => (.error e, p)
  | .ok f => (.ok (), ⟨f⟩)

/-- State of a `Node` instance (geometry.py lines 130-169): stored floats
`z` (inherited from `Point`) and `temp`. -/
structure Node where
  z : PyFloat
  temp : PyFloat
deriving DecidableEq

/-- Embedding of `Node.__init__(z, temp)`: assigns `self.temp = temp` first,
then `self.z = z`, each through the validated setter. -/
def node_init (z : PyObj) (temp : PyObj) : Except PyErr Node :=
  match pyfloat temp with
  | .error e => .error e
  | .ok t =>
      match pyfloat z with
      | .error e => .error e
      | .ok f => .ok ⟨f, t⟩

/-- Embedding of the `Node.temp` setter on an existing object. -/
def set_temp (n : Node) (v : PyObj) : Except PyErr Unit × Node :=
  match pyfloat v with
  | .error e => (.error e, n)
  | .ok f => (.ok (), ⟨n.z, f⟩)

/-- State of an `Element` instance (geometry.py lines 172-333): the fixed
pair of nodes and the two stored material properties. -/
structure Element where
  node0 : Node
  node1 : Node
  thm_cond : PyFloat
  vol_heat_cap : PyFloat
deriving DecidableEq

/-- Embedding of the `Element.dz` property (geometry.py line 230):
`np.abs(self.nodes[1].z - self.nodes[0].z)`. -/
def Element.dz (e : Element) : PyFloat :=
  pyAbs (pySub e.node1.z e.node0.z)

/-- Embedding of the `Element.thm_cond` setter (geometry.py lines 254-259):
`value = float(value)` (may raise), then the negativity check (may raise),
and only then the assignment — so a failure leaves the object unchanged. -/
def set_thm_cond (e : Element) (v : PyObj) : Except PyErr Unit × Element :=
  match pyfloat v with
  | .error err => (.error err, e)
  | .ok f =>
      if pyLt f (.finite 0) then (.error .valueError, e)
      else (.ok (), { e with thm_cond := f })

/-- Embedding of the `Element.vol_heat_cap` setter (geometry.py lines
283-288), identical in shape to the `thm_cond` setter. -/
def set_vol_heat_cap (e : Element) (v : PyObj) : Except PyErr Unit × Element :=
  match pyfloat v with
  | .error err => (.error err, e)
  | .ok f =>
      if pyLt f (.finite 0) then (.error .valueError, e)
      else (.ok (), { e with vol_heat_cap := f })

/-- One entry of the collection passed as `nodes` to the `Element`
constructor: either a `Node` instance or some other object. -/
inductive ElemEntry where
  | node (n : Node)
  | nonNode
deriving DecidableEq

/-- The `nodes` argument of the `Element` constructor: either not iterable
(`tuple(nodes)` raises `TypeError`) or an iterable yielding a list of
entries. -/
inductive NodesArg where
  | notIterable
  | items (l : List ElemEntry)
deriving DecidableEq

/-- Embedding of `Element.__init__` (geometry.py lines 198-208), keeping
the source order of checks: `tuple(nodes)` (TypeError if not iterable),
then `len(nodes) != 2` (ValueError), then the `isinstance(nd, Node)` loop
(TypeError), then the two property setters run on the fresh object. -/
def element_init (nodes : NodesArg) (tc : PyObj) (vhc : PyObj) :
    Except PyErr Element :=
  match nodes with
  | .notIterable => .error .typeError
  | .items l =>
      if l.length ≠ 2 then .error .valueError
      else
        match l with
        | [.node n0, .node n1] =>
            match set_thm_cond ⟨n0, n1, .finite 0, .finite 0⟩ tc with
            | (.error err, _) => .error err
            | (.ok _, e1) =>
                match set_vol_heat_cap e1 vhc with
                | (.error err, _) => .error err
                | (.ok _, e2) => .ok e2
        | _ => .error .typeError

/-- The class attribute `Element._int_pts` (geometry.py line 195). -/
def int_pts : List ℚ := [0.21132486540518708, 0.7886751345948129]

/-- The class attribute `Element._int_wts` (geometry.py line 196). -/
def int_wts : List ℚ := [0.5, 0.5]

/-- A 2-by-2 matrix of floats; `m01` is row 0 column 1, and so on. -/
structure Mat2 where
  m00 : PyFloat
  m01 : PyFloat
  m10 : PyFloat
  m11 : PyFloat
deriving DecidableEq

/-- Models `np.zeros((2, 2))`. -/
def matZero : Mat2 := ⟨.finite 0, .finite 0, .finite 0, .finite 0⟩

/-- Elementwise matrix addition (models `K += ...`). -/
def matAdd (A B : Mat2) : Mat2 :=
  ⟨pyAdd A.m00 B.m00, pyAdd A.m01 B.m01, pyAdd A.m10 B.m10, pyAdd A.m11 B.m11⟩

/-- The outer product `N.T @ N` of a 1-by-2 row with itself. -/
def outer (N : Row2) : Mat2 :=
  ⟨pyMul N.1 N.1, pyMul N.1 N.2, pyMul N.2 N.1, pyMul N.2 N.2⟩

/-- Elementwise scaling of a matrix by a scalar on the right. -/
def matScale (A : Mat2) (c : PyFloat) : Mat2 :=
  ⟨pyMul A.m00 c, pyMul A.m01 c, pyMul A.m10 c, pyMul A.m11 c⟩

/-- The loop body of `storage_matrix` (geometry.py lines 329-331): for each
`(s, w)` the row `N = shape_matrix(s)` is computed (an exception would
propagate) and `N.T @ N * self.dz * w * self.vol_heat_cap` is added to the
accumulator, with exactly the left-associated order of the source. -/
def storage_loop (e : Element) (K : Mat2) : List (ℚ × ℚ) → Except PyErr Mat2
  | [] => .ok K
  | (s, w) :: rest =>
      match shape_matrix (.num (.finite s)) with
      | .error err => .error err
      | .ok N =>
          storage_loop e
            (matAdd K
              (matScale (matScale (matScale (outer N) (Element.dz e))
                (.finite w)) e.vol_heat_cap))
            rest

/-- Embedding of `Element.storage_matrix` (geometry.py lines 314-333):
starts from `np.zeros((2, 2))` and folds the loop body over
`zip(Element._int_pts, Element._int_wts)`. -/
def storage_matrix (e : Element) : Except PyErr Mat2 :=
  storage_loop e matZero (int_pts.zip int_wts)

/-- Possible values of a call to `Element.conductivity_matrix`: either a
2-by-2 numeric matrix, or (what the source actually produces) the bound
method object itself. -/
inductive CondReturn where
  | matrix (K : Mat2)
  | boundMethod
deriving DecidableEq

/-- Embedding of `Element.conductivity_matrix` (geometry.py lines 290-312):
the body is the single statement `return self.conductivity_matrix`, which
evaluates the attribute `conductivity_matrix` on `self` — the bound method
object — and returns it.  No matrix is ever computed. -/
def conductivity_matrix (_e : Element) : CondReturn :=
  .boundMethod

/-- Claim-side storage matrix formula, written from the words of the spec
(sections 4.3 and 4.5): `K = Σ_q Nᵀ(s_q) · N(s_q) · dz · w_q · c` over the
two quadrature points `s₁ = 0.21132486540518708`, `s₂ = 0.7886751345948129`
with weights `w₁ = w₂ = 0.5`, where `N(s) = [1 − s, s]` is the shape row. -/
def specStorage (dz c : ℚ) : Mat2 :=
  ⟨.finite ((1 - 0.21132486540518708) * (1 - 0.21132486540518708) * dz * 0.5 * c
      + (1 - 0.7886751345948129) * (1 - 0.7886751345948129) * dz * 0.5 * c),
   .finite ((1 - 0.21132486540518708) * 0.21132486540518708 * dz * 0.5 * c
      + (1 - 0.7886751345948129) * 0.7886751345948129 * dz * 0.5 * c),
   .finite (0.21132486540518708 * (1 - 0.21132486540518708) * dz * 0.5 * c
      + 0.7886751345948129 * (1 - 0.7886751345948129) * dz * 0.5 * c),
   .finite (0.21132486540518708 * 0.21132486540518708 * dz * 0.5 * c
      + 0.7886751345948129 * 0.7886751345948129 * dz * 0.5 * c)⟩

/-- The concrete element of the test suite and of spec scenario 4: nodes at
depths 0.0 and 1.5, thermal conductivity 69.0, volumetric heat capacity
420.0. -/
def exElement : Element :=
  ⟨⟨.finite 0, .finite 0⟩, ⟨.finite 1.5, .finite 0⟩, .finite 69, .finite 420⟩

/-! Arithmetic reduction lemmas for the finite fragment of the float
model. -/

@[simp]
theorem pyAdd_finite (a b : ℚ) : pyAdd (.finite a) (.finite b) = .finite (a + b) := rfl

@[simp]
theorem pySub_finite (a b : ℚ) : pySub (.finite a) (.finite b) = .finite (a - b) := rfl

@[simp]
theorem pyMul_finite (a b : ℚ) : pyMul (.finite a) (.finite b) = .finite (a * b) := rfl

@[simp]
theorem pyAbs_finite (a : ℚ) : pyAbs (.finite a) = .finite |a| := rfl

@[simp]
theorem pyLt_finite (a b : ℚ) : pyLt (.finite a) (.finite b) = decide (a < b) := rfl

theorem pyDiv_finite (a b : ℚ) (h : b ≠ 0) :
    pyDiv (.finite a) (.finite b) = .finite (a / b) := by
  simp [pyDiv, h]

/-- On a list all of whose entries are numeric, the array conversion
succeeds and returns the values. -/
theorem floatList_map (qs : List ℚ) :
    floatList (qs.map (fun q => .num (.finite q))) = .ok (qs.map .finite) := by
  induction qs with
  | nil => rfl
  | cons q qs ih => simp [floatList, pyfloat, ih]

/-- C1: the claim states that `conductivityMatrix()` returns the symmetric
2x2 quadrature-summed conductivity matrix.  The source body is the single
statement `return self.conductivity_matrix`, which returns the bound method
object itself — contradicting the docstring of the method ("Returns:
conductivity matrix of the element").  Evaluated at the concrete element of
spec scenario 4, the call yields the bound method and no numeric matrix at
all: a code bug. -/
theorem c1_conductivity_matrix_returns_bound_method :
    conductivity_matrix exElement = CondReturn.boundMethod
      ∧ ∀ K : Mat2, conductivity_matrix exElement ≠ CondReturn.matrix K :=
  ⟨rfl, fun _ h => CondReturn.noConfusion h⟩

/-- C7: for every s with 0 ≤ s ≤ 1, `shape_matrix` returns the row
[1 − s, s], whose entries sum to exactly 1; for s < 0 or s > 1, or an s not
convertible to a float, it raises ValueError. -/
theorem c7_shape_row (s : ℚ) :
    (0 ≤ s → s ≤ 1 →
      shape_matrix (.num (.finite s)) = .ok (.finite (1 - s), .finite s)
        ∧ (1 - s) + s = 1)
    ∧ ((s < 0 ∨ 1 < s) → shape_matrix (.num (.finite s)) = .error .valueError)
    ∧ shape_matrix .nonNumeric = .error .valueError := by
  refine ⟨fun h0 h1 => ⟨?_, by ring⟩, fun h => ?_, rfl⟩
  · simp [shape_matrix, pyfloat, not_lt.mpr h0, not_lt.mpr h1]
  · rcases h with h | h <;> simp [shape_matrix, pyfloat, h]

/-- Witness for C7 at the concrete input of spec scenario 2:
`shapeRow(0.9) = [0.1, 0.9]`. -/
theorem c7_witness :
    (shape_matrix (.num (.finite 0.9)) = .ok (.finite (1 - 0.9), .finite 0.9)
        ∧ (1 - (0.9:ℚ)) + 0.9 = 1)
      ∧ (1 - (0.9:ℚ)) = 0.1 :=
  ⟨(c7_shape_row 0.9).1 (by norm_num) (by norm_num), by norm_num⟩

/-- C8: for every s in [0,1] and dz > 0, `gradient_matrix` returns the row
[-1/dz, 1/dz] (independent of s, as the formula shows); it raises
ValueError when s is outside [0,1] or not convertible, when dz is not
convertible, or when dz < 0; and dz = 0 is tolerated — the call succeeds,
returning the infinite row. -/
theorem c8_gradient_row (s d : ℚ) :
    (0 ≤ s → s ≤ 1 → 0 < d →
      gradient_matrix (.num (.finite s)) (.num (.finite d))
        = .ok (.finite (-1 / d), .finite (1 / d)))
    ∧ ((s < 0 ∨ 1 < s) →
      gradient_matrix (.num (.finite s)) (.num (.finite d)) = .error .valueError)
    ∧ gradient_matrix .nonNumeric (.num (.finite d)) = .error .valueError
    ∧ (0 ≤ s → s ≤ 1 →
      gradient_matrix (.num (.finite s)) .nonNumeric = .error .valueError)
    ∧ (0 ≤ s → s ≤ 1 → d < 0 →
      gradient_matrix (.num (.finite s)) (.num (.finite d)) = .error .valueError)
    ∧ (0 ≤ s → s ≤ 1 →
      gradient_matrix (.num (.finite s)) (.num (.finite 0)) = .ok (.negInf, .inf)) := by
  refine ⟨fun h0 h1 hd => ?_, fun h => ?_, rfl, fun h0 h1 => ?_,
    fun h0 h1 hd => ?_, fun h0 h1 => ?_⟩
  · have hne : d ≠ 0 := ne_of_gt hd
    simp [gradient_matrix, pyfloat, not_lt.mpr h0, not_lt.mpr h1,
      not_lt.mpr (le_of_lt hd), pyDiv_finite _ _ hne]
  · rcases h with h | h <;> simp [gradient_matrix, pyfloat, h]
  · simp [gradient_matrix, pyfloat, not_lt.mpr h0, not_lt.mpr h1]
  · simp [gradient_matrix, pyfloat, not_lt.mpr h0, not_lt.mpr h1, hd]
  · simp [gradient_matrix, pyfloat, not_lt.mpr h0, not_lt.mpr h1, pyDiv]
    norm_num

/-- Witness for C8 at the concrete input of spec scenario 3:
`gradientRow(0.0, 2.0) = [-0.5, 0.5]`. -/
theorem c8_witness :
    gradient_matrix (.num (.finite 0)) (.num (.finite 2))
        = .ok (.finite (-1 / 2), .finite (1 / 2))
      ∧ (-1 / (2:ℚ)) = -0.5 :=
  ⟨(c8_gradient_row 0 2).1 (by norm_num) (by norm_num) (by norm_num), by norm_num⟩

/-- C10: the division in `global_to_local` is unguarded — with coincident
node coordinates (z0 = z1) the call passes all validation, raises no error,
and returns an IEEE infinity or NaN. -/
theorem c10_unguarded_zero_division (z a : ℚ) :
    ∃ r, global_to_local (.num (.finite z)) [.num (.finite a), .num (.finite a)]
          = .ok r
      ∧ (r = .inf ∨ r = .negInf ∨ r = .nan) := by
  refine ⟨pyDiv (.finite (z - a)) (.finite (a - a)),
    by simp [global_to_local, pyfloat, floatList], ?_⟩
  rw [sub_self]
  by_cases h1 : 0 < z - a
  · simp [pyDiv, h1]
  · by_cases h2 : z - a < 0 <;> simp [pyDiv, h1, h2]

/-- C3: assigning an invalid value (not convertible to a float, or a
negative real) to `thm_cond` or `vol_heat_cap` raises ValueError and leaves
the element — in particular the previously stored valid value —
unchanged. -/
theorem c3_no_partial_mutation (e : Element) (v : PyObj)
    (h : v = .nonNumeric ∨ ∃ q : ℚ, v = .num (.finite q) ∧ q < 0) :
    set_thm_cond e v = (.error .valueError, e)
      ∧ set_vol_heat_cap e v = (.error .valueError, e) := by
  rcases h with h | ⟨q, hv, hq⟩
  · subst h; exact ⟨rfl, rfl⟩
  · subst hv
    constructor <;> simp [set_thm_cond, set_vol_heat_cap, pyfloat, hq]

/-- Witness for C3 at the concrete input of spec scenario 4: the element
was constructed with `thm_cond = 69.0`; assigning `-1` raises ValueError
and the stored conductivity is still 69.0. -/
theorem c3_witness :
    (set_thm_cond exElement (.num (.finite (-1))) = (.error .valueError, exElement)
      ∧ set_vol_heat_cap exElement (.num (.finite (-1)))
          = (.error .valueError, exElement))
    ∧ exElement.thm_cond = .finite 69 :=
  ⟨c3_no_partial_mutation exElement _ (Or.inr ⟨-1, rfl, by norm_num⟩), rfl⟩

/-- C4 counterexample: the claim says no reachable `Point`/`Node` ever
holds a non-finite depth or temperature.  But the Python builtin `float`
accepts infinities and NaN, and the setters check nothing beyond the
conversion: constructing a point from the float infinity succeeds and
stores a non-finite depth, and a node likewise stores a NaN temperature. -/
theorem c4_counterexample :
    point_init (.num .inf) = .ok ⟨.inf⟩
      ∧ node_init (.num (.finite 0)) (.num .nan) = .ok ⟨.finite 0, .nan⟩
      ∧ PyFloat.isFinite .inf = false ∧ PyFloat.isFinite .nan = false :=
  ⟨rfl, rfl, rfl, rfl⟩

/-- C4 amended: the stored depth and temperature are exactly whatever the
float conversion yields — construction or assignment fails (ValueError) iff
the supplied value is not convertible to a float; convertible non-finite
values (infinities, NaN) are accepted and stored. -/
theorem c4_amended (f g : PyFloat) (p : Point) (n : Node) :
    point_init (.num f) = .ok ⟨f⟩
    ∧ point_init .nonNumeric = .error .valueError
    ∧ set_z p (.num f) = (.ok (), ⟨f⟩)
    ∧ set_z p .nonNumeric = (.error .valueError, p)
    ∧ node_init (.num f) (.num g) = .ok ⟨f, g⟩
    ∧ node_init .nonNumeric (.num g) = .error .valueError
    ∧ node_init (.num f) .nonNumeric = .error .valueError
    ∧ set_temp n (.num f) = (.ok (), ⟨n.z, f⟩)
    ∧ set_temp n .nonNumeric = (.error .valueError, n) :=
  ⟨rfl, rfl, rfl, rfl, rfl, rfl, rfl, rfl, rfl⟩

/-- C5 counterexample: the claim says a pair-shaped argument of length ≠ 2
fails with a type error.  The source raises ValueError in both named
places: `global_to_local` with a one-element coordinate list, and the
`Element` constructor with a three-node tuple, both raise ValueError — and
ValueError is a different error kind than TypeError. -/
theorem c5_counterexample :
    global_to_local (.num (.finite 3)) [.num (.finite 0)] = .error .valueError
    ∧ element_init
        (.items [.node ⟨.finite 0, .finite 0⟩, .node ⟨.finite 1.5, .finite 0⟩,
          .node ⟨.finite 3, .finite 0⟩])
        (.num (.finite 0)) (.num (.finite 0)) = .error .valueError
    ∧ PyErr.valueError ≠ PyErr.typeError := by
  refine ⟨rfl, rfl, fun h => PyErr.noConfusion h⟩

/-- C5 amended: a pair-shaped argument of wrong length fails with a value
error (not a type error) in both places; the type error is reserved for a
non-iterable `nodes` argument and for entries that are not `Node`
instances. -/
theorem c5_amended (qs : List ℚ) (hq : qs.length ≠ 2)
    (le : List ElemEntry) (hl : le.length ≠ 2) (tc vhc : PyObj) (n : Node) :
    global_to_local (.num (.finite 0)) (qs.map (fun q => .num (.finite q)))
        = .error .valueError
    ∧ element_init (.items le) tc vhc = .error .valueError
    ∧ element_init .notIterable tc vhc = .error .typeError
    ∧ element_init (.items [.nonNode, .node n]) tc vhc = .error .typeError := by
  refine ⟨?_, ?_, rfl, rfl⟩
  · rcases qs with _ | ⟨a, _ | ⟨b, _ | ⟨c, rest⟩⟩⟩
    · simp [global_to_local, pyfloat, floatList]
    · simp [global_to_local, pyfloat, floatList]
    · exact absurd rfl hq
    · simp [global_to_local, pyfloat, floatList, floatList_map]
  · simp [element_init, hl]

/-- Witness for C5 amended at concrete inputs: a one-element coordinate
list and an empty node list. -/
theorem c5_witness :
    global_to_local (.num (.finite 0)) ([(0:ℚ)].map (fun q => .num (.finite q)))
        = .error .valueError
    ∧ element_init (.items []) (.num (.finite 0)) (.num (.finite 0))
        = .error .valueError
    ∧ element_init .notIterable (.num (.finite 0)) (.num (.finite 0))
        = .error .typeError
    ∧ element_init (.items [.nonNode, .node ⟨.finite 0, .finite 0⟩])
        (.num (.finite 0)) (.num (.finite 0)) = .error .typeError :=
  c5_amended [0] (by decide) [] (by decide) _ _ _

/-- C6: `global_to_local` returns exactly (z − z0)/(z1 − z0) for any real z
and distinct real node coordinates; for z0 < z1 and z0 ≤ z ≤ z1 the result
lies in [0,1], with value 0 at z0, 1 at z1 and 0.5 at the midpoint; and no
bounds check is applied — z outside the element yields a result outside
[0,1] without error. -/
theorem c6_to_local (z q0 q1 : ℚ) (hne : q0 ≠ q1) :
    global_to_local (.num (.finite z)) [.num (.finite q0), .num (.finite q1)]
        = .ok (.finite ((z - q0) / (q1 - q0)))
    ∧ (q0 < q1 → q0 ≤ z → z ≤ q1 →
        0 ≤ (z - q0) / (q1 - q0) ∧ (z - q0) / (q1 - q0) ≤ 1)
    ∧ global_to_local (.num (.finite q0)) [.num (.finite q0), .num (.finite q1)]
        = .ok (.finite 0)
    ∧ global_to_local (.num (.finite q1)) [.num (.finite q0), .num (.finite q1)]
        = .ok (.finite 1)
    ∧ global_to_local (.num (.finite ((q0 + q1) / 2)))
        [.num (.finite q0), .num (.finite q1)] = .ok (.finite 0.5)
    ∧ (q0 < q1 → ¬(q0 ≤ z ∧ z ≤ q1) →
        (z - q0) / (q1 - q0) < 0 ∨ 1 < (z - q0) / (q1 - q0)) := by
  have hsub : q1 - q0 ≠ 0 := sub_ne_zero_of_ne (Ne.symm hne)
  have hcore : ∀ w : ℚ,
      global_to_local (.num (.finite w)) [.num (.finite q0), .num (.finite q1)]
        = .ok (.finite ((w - q0) / (q1 - q0))) := by
    intro w
    simp [global_to_local, pyfloat, floatList, pyDiv_finite _ _ hsub]
  refine ⟨hcore z, fun hlt h0 h1 => ⟨?_, ?_⟩, ?_, ?_, ?_, fun hlt hout => ?_⟩
  · exact div_nonneg (sub_nonneg.mpr h0) (le_of_lt (sub_pos.mpr hlt))
  · exact (div_le_one (sub_pos.mpr hlt)).mpr (sub_le_sub_right h1 q0)
  · rw [hcore q0]; norm_num
  · rw [hcore q1]; rw [div_self hsub]
  · rw [hcore ((q0 + q1) / 2)]
    have hm : ((q0 + q1) / 2 - q0) / (q1 - q0) = (0.5 : ℚ) := by
      rw [show (q0 + q1) / 2 - q0 = (q1 - q0) / 2 by ring]
      rw [div_right_comm, div_self hsub]
      norm_num
    rw [hm]
  · by_cases hz : q0 ≤ z
    · have hzq : ¬ z ≤ q1 := fun hzz => hout ⟨hz, hzz⟩
      exact Or.inr ((one_lt_div (sub_pos.mpr hlt)).mpr
        (sub_lt_sub_right (not_le.mp hzq) q0))
    · exact Or.inl (div_neg_of_neg_of_pos (sub_neg.mpr (not_le.mp hz))
        (sub_pos.mpr hlt))

/-- Witness for C6 at the concrete input of spec scenario 1: nodes at
depths 0.0 and 6.0, `toLocal(3.0, [0, 6]) = 0.5`. -/
theorem c6_witness :
    global_to_local (.num (.finite 3)) [.num (.finite 0), .num (.finite 6)]
        = .ok (.finite ((3 - 0) / (6 - 0)))
      ∧ ((3:ℚ) - 0) / (6 - 0) = 0.5 :=
  ⟨(c6_to_local 3 0 6 (by norm_num)).1, by norm_num⟩

/-- The shape row at the first Gauss point passes validation. -/
theorem shape_s1 :
    shape_matrix (.num (.finite 0.21132486540518708))
      = .ok (.finite (1 - 0.21132486540518708), .finite 0.21132486540518708) := by
  norm_num [shape_matrix, pyfloat]

/-- The shape row at the second Gauss point passes validation. -/
theorem shape_s2 :
    shape_matrix (.num (.finite 0.7886751345948129))
      = .ok (.finite (1 - 0.7886751345948129), .finite 0.7886751345948129) := by
  norm_num [shape_matrix, pyfloat]

/-- The zipped quadrature table of the source loop. -/
theorem int_zip :
    int_pts.zip int_wts
      = [(0.21132486540518708, 0.5), (0.7886751345948129, 0.5)] := rfl

/-- Evaluation of `storage_matrix` on an element with finite node depths
and a finite volumetric heat capacity: the loop produces exactly the
claim-side quadrature formula with dz = |z1 − z0|.  The result does not
depend on the temperatures or on the conductivity. -/
theorem storage_matrix_eval (q0 q1 : ℚ) (t0 t1 k : PyFloat) (c : ℚ) :
    storage_matrix ⟨⟨.finite q0, t0⟩, ⟨.finite q1, t1⟩, k, .finite c⟩
      = .ok (specStorage |q1 - q0| c) := by
  simp only [storage_matrix, int_zip, storage_loop, shape_s1, shape_s2,
    Element.dz, matZero, matAdd, matScale, outer, pySub_finite, pyAbs_finite,
    pyMul_finite, pyAdd_finite, specStorage, Except.ok.injEq, Mat2.mk.injEq,
    PyFloat.finite.injEq]
  refine ⟨by ring, by ring, by ring, by ring⟩

/-- C2: on any element with finite node depths and heat capacity,
`storage_matrix` returns precisely the sum over the two quadrature points
s₁ = 0.21132486540518708 and s₂ = 0.7886751345948129, each with weight
0.5, of Nᵀ(s)·N(s)·dz·w·vol_heat_cap — the `specStorage` formula — and the
returned matrix is symmetric.  Determinism is immediate: the result is a
function of the node depths and the property value alone. -/
theorem c2_storage_matrix (e : Element) (q0 q1 c : ℚ)
    (h0 : e.node0.z = .finite q0) (h1 : e.node1.z = .finite q1)
    (hc : e.vol_heat_cap = .finite c) :
    storage_matrix e = .ok (specStorage |q1 - q0| c)
      ∧ (specStorage |q1 - q0| c).m01 = (specStorage |q1 - q0| c).m10 := by
  obtain ⟨⟨z0, t0⟩, ⟨z1, t1⟩, k, vc⟩ := e
  dsimp only at h0 h1 hc
  subst h0 h1 hc
  refine ⟨storage_matrix_eval q0 q1 t0 t1 k c, ?_⟩
  simp only [specStorage, PyFloat.finite.injEq]
  ring

/-- Witness for C2 at the concrete element of spec scenario 4 (depths 0.0
and 1.5, heat capacity 420.0). -/
theorem c2_witness :
    storage_matrix exElement = .ok (specStorage |(1.5:ℚ) - 0| 420)
      ∧ (specStorage |(1.5:ℚ) - 0| 420).m01
          = (specStorage |(1.5:ℚ) - 0| 420).m10 :=
  c2_storage_matrix exElement 0 1.5 420 rfl rfl rfl

/-- C9: `storage_matrix` scales linearly in the heat capacity and in the
element length: doubling `vol_heat_cap`, or doubling the element length
(replacing the second depth by q0 + 2·(q1 − q0) while keeping the property
fixed), doubles every entry of the returned matrix. -/
theorem c9_storage_scaling (q0 q1 c : ℚ) (t0 t1 k : PyFloat) :
    ∃ M,
      storage_matrix ⟨⟨.finite q0, t0⟩, ⟨.finite q1, t1⟩, k, .finite c⟩ = .ok M
      ∧ storage_matrix ⟨⟨.finite q0, t0⟩, ⟨.finite q1, t1⟩, k, .finite (2 * c)⟩
          = .ok (matScale M (.finite 2))
      ∧ storage_matrix ⟨⟨.finite q0, t0⟩,
            ⟨.finite (q0 + 2 * (q1 - q0)), t1⟩, k, .finite c⟩
          = .ok (matScale M (.finite 2)) := by
  refine ⟨specStorage |q1 - q0| c, storage_matrix_eval q0 q1 t0 t1 k c, ?_, ?_⟩
  · rw [storage_matrix_eval]
    congr 1
    simp only [specStorage, matScale, pyMul_finite, Mat2.mk.injEq,
      PyFloat.finite.injEq]
    refine ⟨by ring, by ring, by ring, by ring⟩
  · rw [storage_matrix_eval]
    congr 1
    have habs : |q0 + 2 * (q1 - q0) - q0| = 2 * |q1 - q0| := by
      rw [show q0 + 2 * (q1 - q0) - q0 = 2 * (q1 - q0) by ring, abs_mul]
      norm_num
    rw [habs]
    simp only [specStorage, matScale, pyMul_finite, Mat2.mk.injEq,
      PyFloat.finite.injEq]
    refine ⟨by ring, by ring, by ring, by ring⟩

end Fem1d
